import Mathlib

/-!
Verification development for the gc-helia wallet-authentication core.

The development shallowly embeds the signature-verification and session
modules of the repository:

* a CBOR codec model (the `cbor` npm package as used by the source, and the
  byte/hex/UTF-8 conversions of Node `Buffer`),
* `verifyCIP8Signature` from `src/unnamed/part_006` (namespace `Cip8`),
* `verifyCIP8Signature` / `validateWalletConnection` from
  `src/app/lib/signature-verifier.ts` (namespace `SigVer`), with the external
  `@stricahq/cip08` / `blakejs` primitives as explicit oracle parameters,
* the session-token manager and rate limiter from `src/app/lib/auth.ts`
  (namespace `Auth`), with the `jose` JWT layer modelled symbolically,
* the cookie options written by `src/app/api/wallet/session/route.ts`
  (namespace `SessionRoute`).

Bytes are `List Nat` (each entry intended < 256); machine arithmetic never
overflows in the modelled code paths.
-/

/-- Value of a hex digit character, if it is one (JS `Buffer.from(s, 'hex')`
accepts 0-9, a-f, A-F). -/
def hexDigitVal (c : Char) : Option Nat :=
  if '0' ≤ c ∧ c ≤ '9' then some (c.toNat - '0'.toNat)
  else if 'a' ≤ c ∧ c ≤ 'f' then some (c.toNat - 'a'.toNat + 10)
  else if 'A' ≤ c ∧ c ≤ 'F' then some (c.toNat - 'A'.toNat + 10)
  else none

/-- Node `Buffer.from(s, 'hex')`: decode two hex digits per byte, truncating at
the first invalid or incomplete pair. -/
def hexDecodeChars : List Char → List Nat
  | a :: b :: rest =>
    match hexDigitVal a, hexDigitVal b with
    | some x, some y => (16 * x + y) :: hexDecodeChars rest
    | _, _ => []
  | _ => []

/-- Hex decoding of a string, Node `Buffer.from(s, 'hex')`. -/
def hexDecode (s : String) : List Nat :=
  hexDecodeChars s.data

/-- Lower-case hex digit for a value < 16. -/
def hexDigitChar (n : Nat) : Char :=
  if n < 10 then Char.ofNat ('0'.toNat + n) else Char.ofNat ('a'.toNat + n - 10)

/-- Node `buf.toString('hex')`: lower-case hex encoding. -/
def hexEncode (bs : List Nat) : String :=
  ⟨bs.foldr (fun b acc => hexDigitChar (b / 16 % 16) :: hexDigitChar (b % 16) :: acc) []⟩

/-- UTF-8 encoding of a single code point. -/
def utf8EncodeChar (n : Nat) : List Nat :=
  if n < 0x80 then [n]
  else if n < 0x800 then [0xC0 + n / 64, 0x80 + n % 64]
  else if n < 0x10000 then [0xE0 + n / 4096, 0x80 + n / 64 % 64, 0x80 + n % 64]
  else [0xF0 + n / 262144, 0x80 + n / 4096 % 64, 0x80 + n / 64 % 64, 0x80 + n % 64]

/-- UTF-8 encoding of a string, Node `Buffer.from(s)`. -/
def utf8Encode (s : String) : List Nat :=
  (s.data.map (fun c => utf8EncodeChar c.toNat)).flatten

/-- The Unicode replacement character U+FFFD. -/
def replChar : Char := Char.ofNat 0xFFFD

/-- Whether a byte is a UTF-8 continuation byte (0x80-0xBF). -/
def isCont (c : Nat) : Bool := 0x80 ≤ c ∧ c ≤ 0xBF

/-- Fuel-indexed WHATWG UTF-8 decoder with replacement characters, the
behaviour of Node `buf.toString('utf8')`.  The fuel is decremented once per
produced character; each character consumes at least one byte, so fuel equal
to the byte count suffices. -/
def utf8DecodeAux : Nat → List Nat → List Char
  | 0, _ => []
  | _ + 1, [] => []
  | fuel + 1, b :: rest =>
    if b ≤ 0x7F then Char.ofNat b :: utf8DecodeAux fuel rest
    else if 0xC2 ≤ b ∧ b ≤ 0xDF then
      match rest with
      | c :: rest2 =>
        if isCont c then
          Char.ofNat ((b - 0xC0) * 64 + (c - 0x80)) :: utf8DecodeAux fuel rest2
        else replChar :: utf8DecodeAux fuel rest
      | [] => [replChar]
    else if 0xE0 ≤ b ∧ b ≤ 0xEF then
      match rest with
      | c :: rest2 =>
        let lo := if b = 0xE0 then 0xA0 else 0x80
        let hi := if b = 0xED then 0x9F else 0xBF
        if lo ≤ c ∧ c ≤ hi then
          match rest2 with
          | d :: rest3 =>
            if isCont d then
              Char.ofNat ((b - 0xE0) * 4096 + (c - 0x80) * 64 + (d - 0x80)) ::
                utf8DecodeAux fuel rest3
            else replChar :: utf8DecodeAux fuel rest2
          | [] => [replChar]
        else replChar :: utf8DecodeAux fuel rest
      | [] => [replChar]
    else if 0xF0 ≤ b ∧ b ≤ 0xF4 then
      match rest with
      | c :: rest2 =>
        let lo := if b = 0xF0 then 0x90 else 0x80
        let hi := if b = 0xF4 then 0x8F else 0xBF
        if lo ≤ c ∧ c ≤ hi then
          match rest2 with
          | d :: rest3 =>
            if isCont d then
              match rest3 with
              | e :: rest4 =>
                if isCont e then
                  Char.ofNat ((b - 0xF0) * 262144 + (c - 0x80) * 4096 +
                      (d - 0x80) * 64 + (e - 0x80)) :: utf8DecodeAux fuel rest4
                else replChar :: utf8DecodeAux fuel rest3
              | [] => [replChar]
            else replChar :: utf8DecodeAux fuel rest2
          | [] => [replChar]
        else replChar :: utf8DecodeAux fuel rest
      | [] => [replChar]
    else replChar :: utf8DecodeAux fuel rest

/-- Node `buf.toString('utf8')`. -/
def utf8Decode (bs : List Nat) : String :=
  ⟨utf8DecodeAux bs.length bs⟩

/-- The structured values produced by the CBOR codec used by the source
(`cbor` npm package / `@stricahq/cbors`): integers, byte strings (Node
`Buffer`), text strings, arrays, maps, booleans and null.  Tags, floats,
indefinite-length items and the `undefined` simple value are outside the
model. -/
inductive CBOR where
  | int (i : Int)
  | bytes (b : List Nat)
  | txt (s : String)
  | arr (xs : List CBOR)
  | map (kvs : List (CBOR × CBOR))
  | bool (b : Bool)
  | null
deriving Inhabited

mutual

/-- Structural equality of CBOR values (JS value equality on the primitive
keys that occur in COSE structures). -/
def cborBeq : CBOR → CBOR → Bool
  | .int a, .int b => a == b
  | .bytes a, .bytes b => a == b
  | .txt a, .txt b => a == b
  | .bool a, .bool b => a == b
  | .null, .null => true
  | .arr a, .arr b => cborBeqList a b
  | .map a, .map b => cborBeqPairs a b
  | _, _ => false

/-- Pointwise `cborBeq` on lists. -/
def cborBeqList : List CBOR → List CBOR → Bool
  | [], [] => true
  | a :: as2, b :: bs2 => cborBeq a b && cborBeqList as2 bs2
  | _, _ => false

/-- Pointwise `cborBeq` on key-value lists. -/
def cborBeqPairs : List (CBOR × CBOR) → List (CBOR × CBOR) → Bool
  | [], [] => true
  | (ka, va) :: as2, (kb, vb) :: bs2 =>
    cborBeq ka kb && cborBeq va vb && cborBeqPairs as2 bs2
  | _, _ => false

end

/-- Lookup in a decoded CBOR map (JS `Map.get`).  Duplicate keys follow the
decoder behaviour where later entries override earlier ones. -/
def cborLookup (kvs : List (CBOR × CBOR)) (k : CBOR) : Option CBOR :=
  kvs.foldl (fun acc kv => if cborBeq kv.1 k then some kv.2 else acc) none

/-- Membership in a decoded CBOR map (JS `Map.has`). -/
def cborHasKey (kvs : List (CBOR × CBOR)) (k : CBOR) : Bool :=
  kvs.any (fun kv => cborBeq kv.1 k)

/-- JS truthiness of a decoded CBOR value: `0`, the empty string, `false` and
`null` are falsy; `Buffer`s, arrays and `Map`s are objects and always
truthy. -/
def jsTruthy : CBOR → Bool
  | .int i => i != 0
  | .bytes _ => true
  | .txt s => s != ""
  | .arr _ => true
  | .map _ => true
  | .bool b => b
  | .null => false

/-- JS `String.prototype.toLowerCase` on the ASCII range (wallet names are
ASCII identifiers). -/
def jsToLowerCase (s : String) : String :=
  ⟨s.data.map (fun c =>
    if 'A' ≤ c ∧ c ≤ 'Z' then Char.ofNat (c.toNat + 32) else c)⟩

/-- CBOR initial-byte encoding of a major type and length/argument, using the
shortest form (the encoding produced by the `cbor` npm package). -/
def cborHead (major n : Nat) : List Nat :=
  if n < 24 then [major * 32 + n]
  else if n < 256 then [major * 32 + 24, n]
  else if n < 65536 then [major * 32 + 25, n / 256, n % 256]
  else if n < 4294967296 then
    [major * 32 + 26, n / 16777216 % 256, n / 65536 % 256, n / 256 % 256, n % 256]
  else
    [major * 32 + 27,
     n / 72057594037927936 % 256, n / 281474976710656 % 256,
     n / 1099511627776 % 256, n / 4294967296 % 256,
     n / 16777216 % 256, n / 65536 % 256, n / 256 % 256, n % 256]

mutual

/-- CBOR encoding (`cbor.encode` of the npm package) of a structured value. -/
def cborEncode : CBOR → List Nat
  | .int i =>
    if 0 ≤ i then cborHead 0 i.toNat else cborHead 1 (-1 - i).toNat
  | .bytes b => cborHead 2 b.length ++ b
  | .txt s => cborHead 3 (utf8Encode s).length ++ utf8Encode s
  | .arr xs => cborHead 4 xs.length ++ cborEncodeList xs
  | .map kvs => cborHead 5 kvs.length ++ cborEncodePairs kvs
  | .bool false => [244]
  | .bool true => [245]
  | .null => [246]

/-- Concatenated encodings of array elements. -/
def cborEncodeList : List CBOR → List Nat
  | [] => []
  | x :: xs => cborEncode x ++ cborEncodeList xs

/-- Concatenated encodings of map entries. -/
def cborEncodePairs : List (CBOR × CBOR) → List Nat
  | [] => []
  | kv :: kvs => cborEncode kv.1 ++ cborEncode kv.2 ++ cborEncodePairs kvs

end

/-- Read `k` bytes big-endian. -/
def readBE : Nat → List Nat → Option (Nat × List Nat)
  | 0, bs => some (0, bs)
  | _ + 1, [] => none
  | k + 1, b :: rest =>
    match readBE k rest with
    | some (n, r) => some (b * 256 ^ k + n, r)
    | none => none

/-- Split off `n` leading bytes. -/
def takeBytes (n : Nat) (bs : List Nat) : Option (List Nat × List Nat) :=
  if bs.length < n then none else some (bs.take n, bs.drop n)

/-- Group a flat list of decoded map items into key-value pairs; fails on an
odd count. -/
def pairUp : List CBOR → Option (List (CBOR × CBOR))
  | [] => some []
  | [_] => none
  | k :: v :: rest =>
    match pairUp rest with
    | some kvs => some ((k, v) :: kvs)
    | none => none

/-- Fuel-indexed CBOR decoder for the modelled value subset, decoding `n`
consecutive values.  One unit of fuel bounds the nesting-plus-item count;
every item consumes at least one byte, so fuel `length + 1` suffices at top
level.  A map of `m` entries is decoded as `2 * m` flat values and paired
up. -/
def cborDecodeN : Nat → Nat → List Nat → Option (List CBOR × List Nat)
  | _, 0, bs => some ([], bs)
  | 0, _ + 1, _ => none
  | _ + 1, _ + 1, [] => none
  | fuel + 1, n + 1, b :: rest =>
    let major := b / 32
    let info := b % 32
    let first : Option (CBOR × List Nat) :=
      if major = 7 then
        if info = 20 then some (.bool false, rest)
        else if info = 21 then some (.bool true, rest)
        else if info = 22 then some (.null, rest)
        else none
      else
        match (if info < 24 then some (info, rest)
               else if info = 24 then readBE 1 rest
               else if info = 25 then readBE 2 rest
               else if info = 26 then readBE 4 rest
               else if info = 27 then readBE 8 rest
               else none) with
        | none => none
        | some (m, r) =>
          if major = 0 then some (.int (Int.ofNat m), r)
          else if major = 1 then some (.int (-1 - Int.ofNat m), r)
          else if major = 2 then
            match takeBytes m r with
            | some (b2, r2) => some (.bytes b2, r2)
            | none => none
          else if major = 3 then
            match takeBytes m r with
            | some (b2, r2) => some (.txt (utf8Decode b2), r2)
            | none => none
          else if major = 4 then
            match cborDecodeN fuel m r with
            | some (xs, r2) => some (.arr xs, r2)
            | none => none
          else if major = 5 then
            match cborDecodeN fuel (2 * m) r with
            | some (items, r2) =>
              match pairUp items with
              | some kvs => some (.map kvs, r2)
              | none => none
            | none => none
          else none
    match first with
    | none => none
    | some (v, r) =>
      match cborDecodeN fuel n r with
      | some (vs, r2) => some (v :: vs, r2)
      | none => none

/-- Decode one complete top-level CBOR value; trailing bytes are an error
(`cbor.decode` rejects extra data after the first value). -/
def cborDecode (bs : List Nat) : Option CBOR :=
  match cborDecodeN (bs.length + 1) 1 bs with
  | some ([v], []) => some v
  | _ => none

/-- The `sign` object of a connection claim: hex-encoded COSE_Sign1 envelope
and hex-encoded COSE key envelope. -/
structure SignMaterial where
  signature : String
  key : String

/-- The `data.addressInfo` object. -/
structure AddressInfo where
  networkId : Option Int

/-- The `data` object of a connection claim. -/
structure WalletData where
  address : String
  name : Option String
  addressInfo : Option AddressInfo

/-- The `signedConnection` object (transaction-based validation); only its
`txHex` field is consumed by the verification code. -/
structure SignedConnection where
  txHex : String

/-- The `ConnectionData` interface shared by both signature-verifier modules;
absent JS fields are `none`. -/
structure ConnectionData where
  data : Option WalletData
  hash : Option String
  sign : Option SignMaterial
  signedConnection : Option SignedConnection

namespace Cip8

/-- The `getValueSafely` helper of `part_006`: `Map.get` for maps, JS index
access for arrays and `Buffer`s (a `Buffer` index reads the byte value),
`undefined` otherwise; falsy objects short-circuit to `undefined`. -/
def getValueSafely (obj key : CBOR) : Option CBOR :=
  if jsTruthy obj = false then none
  else
    match obj, key with
    | .map kvs, k => cborLookup kvs k
    | .arr xs, .int i => if 0 ≤ i then xs.get? i.toNat else none
    | .bytes bs, .int i =>
      if 0 ≤ i then (bs.get? i.toNat).map (fun b => .int b) else none
    | _, _ => none

/-- The `coseKey.has ? coseKey.has(k) : k in coseKey` test of `part_006`:
key membership for maps, index-in-range for arrays and `Buffer`s, false
otherwise. -/
def jsHas (obj key : CBOR) : Bool :=
  match obj, key with
  | .map kvs, k => cborHasKey kvs k
  | .arr xs, .int i => decide (0 ≤ i) && decide (i.toNat < xs.length)
  | .bytes bs, .int i => decide (0 ≤ i) && decide (i.toNat < bs.length)
  | _, _ => false

/-- Payload resolution of `part_006` lines 217-231.  The diagnostic log at
line 220 evaluates `payload ? payload.equals(expectedHash) : ...` first: on a
truthy payload that is not a `Buffer` (non-empty text, nonzero integer,
`true`, array, `Map`) the `.equals` call throws a TypeError, which the
function-level catch turns into `return false` — modelled as `none`, like
the explicit mismatch return.  Then a `null` or empty-Buffer payload is
replaced by the caller-supplied hash bytes, a non-empty Buffer payload must
be byte-equal to them, and the surviving falsy non-Buffer payloads (the
empty string, `0`, `false`) pass through unchanged. -/
def resolvePayload (payload : CBOR) (expectedHash : List Nat) : Option CBOR :=
  match payload with
  | .null => some (.bytes expectedHash)
  | .bytes p =>
    if p.length = 0 then some (.bytes expectedHash)
    else if p = expectedHash then some (.bytes p) else none
  | other => if jsTruthy other then none else some other

/-- COSE key validation of `part_006` lines 244-274: requires key type
(label 1) strictly equal to 1, curve (label -1) present and strictly equal
to 6, and X coordinate (label -2) present, a `Buffer`, and exactly 32 bytes;
returns the raw public key. -/
def validateCoseKey (coseKey : CBOR) : Option (List Nat) :=
  match getValueSafely coseKey (.int 1) with
  | some (.int 1) =>
    if jsHas coseKey (.int (-1)) = false then none
    else
      match getValueSafely coseKey (.int (-1)) with
      | some (.int 6) =>
        if jsHas coseKey (.int (-2)) = false then none
        else
          match getValueSafely coseKey (.int (-2)) with
          | some (.bytes pk) => if pk.length = 32 then some pk else none
          | _ => none
      | _ => none
  | _ => none

/-- DER SPKI header prepended to the raw Ed25519 key before
`crypto.createPublicKey` (the hex literal of `part_006` line 299). -/
def ed25519SpkiHeader : List Nat := hexDecode "302a300506032b6570032100"

/-- `cbor.decode` as called on an arbitrary decoded value (the npm package
accepts a `Buffer` or a hex string; anything else throws, which the source
catches and turns into `false`). -/
def cborDecodeJS : CBOR → Option CBOR
  | .bytes b => cborDecode b
  | .txt s => cborDecode (hexDecode s)
  | _ => none

/-- The `verifyCIP8Signature` function of `src/unnamed/part_006`
(lines 167-327).  `cryptoVerify pubKeyDer msg sig` is the external
`crypto.verify(null, msg, publicKey, sig)` primitive, passed as an oracle.
The decoded `hashed` flag (lines 213-215) is computed by the source but never
used for control flow, so it does not appear here; the diagnostic log at
line 220, which throws on truthy non-`Buffer` payloads, is modelled inside
`resolvePayload`.  A non-`Buffer` signature component makes `crypto.verify`
throw, which the surrounding catch converts to `false`. -/
def verifyCIP8Signature (cryptoVerify : List Nat → List Nat → List Nat → Bool)
    (cd : ConnectionData) : Bool :=
  match cd.sign, cd.hash with
  | some sg, some hashHex =>
    if sg.signature = "" ∨ sg.key = "" ∨ hashHex = "" then false
    else
      match cborDecode (hexDecode sg.signature) with
      | some (.arr [protectedHeaderBytes, _unprotectedHeaders, payload, signature]) =>
        let expectedHash := hexDecode hashHex
        match cborDecodeJS protectedHeaderBytes with
        | none => false
        | some _ =>
          match resolvePayload payload expectedHash with
          | none => false
          | some sigPayload =>
            match cborDecode (hexDecode sg.key) with
            | none => false
            | some coseKey =>
              match validateCoseKey coseKey with
              | none => false
              | some publicKeyRaw =>
                let sigStructureEncoded := cborEncode
                  (.arr [.txt "Signature1", protectedHeaderBytes, .bytes [], sigPayload])
                match signature with
                | .bytes sigBytes =>
                  cryptoVerify (ed25519SpkiHeader ++ publicKeyRaw)
                    sigStructureEncoded sigBytes
                | _ => false
      | some _ => false
      | none => false
  | _, _ => false

end Cip8

namespace SigVer

/-- The two ways `signature-verifier.ts` constructs the `@stricahq/cip08`
`CoseSign1` object that reaches `verifySignature`: parsed directly from the
envelope hex (`CoseSign1.fromCbor`), or rebuilt with a substituted payload
(the inline `CoseSign1FromCborWithPayload`). -/
inductive Sign1Obj where
  | fromCbor (sigHex : String)
  | withPayload (sigHex : String) (payload : List Nat)

/-- External primitives used by `signature-verifier.ts`, passed as oracles:
whether the dynamic import succeeds, `getPublicKeyFromCoseKey` (which may
throw), whether `CoseSign1.fromCbor` parses without throwing, `blake2bHex`
with a 28-byte digest, and `CoseSign1.verifySignature`. -/
structure Cip08Deps where
  importOk : Bool
  getPublicKeyFromCoseKey : String → Except Unit (List Nat)
  fromCborOk : String → Bool
  blake2b224hex : String → String
  verifySignature : Sign1Obj → List Nat → Bool

mutual

/-- Default JS stringification (`v.toString()` with no or an ignored
argument): integers print in decimal, `Buffer`s decode as UTF-8, arrays join
their elements with commas, `Map`s print as their object tag; `null` only
occurs as an array element under `join`, where it contributes the empty
string. -/
def jsToStringDefault : CBOR → String
  | .int i => toString i
  | .bytes b => utf8Decode b
  | .txt s => s
  | .bool b => if b then "true" else "false"
  | .null => ""
  | .arr xs => String.intercalate "," (jsToStringEach xs)
  | .map _ => "[object Map]"

/-- Elementwise default stringification of array entries. -/
def jsToStringEach : List CBOR → List String
  | [] => []
  | x :: xs => jsToStringDefault x :: jsToStringEach xs

end

/-- JS `v.toString('hex')`: hex for `Buffer`s; a number throws (invalid
radix); every other value ignores the argument. -/
def jsToStringHex : CBOR → Except Unit String
  | .bytes b => .ok (hexEncode b)
  | .int _ => .error ()
  | v => .ok (jsToStringDefault v)

/-- JS `v.toString('utf8')`: UTF-8 decoding for `Buffer`s; a number throws
(invalid radix); every other value ignores the argument. -/
def jsToStringUtf8 : CBOR → Except Unit String
  | .int _ => .error ()
  | v => .ok (jsToStringDefault v)

/-- JS index access `decoded.value[i]` on a decoded CBOR value: `undefined`
unless the value is an array (or `Buffer`/string, whose indices read bytes
and characters). -/
def jsIndex : CBOR → Nat → Option CBOR
  | .arr xs, i => xs.get? i
  | .bytes bs, i => (bs.get? i).map (fun b => .int b)
  | .txt s, i => (s.data.get? i).map (fun c => .txt ⟨[c]⟩)
  | _, _ => none

/-- The `hashed` flag of `signature-verifier.ts` lines 227-230:
`unprotectedMap && unprotectedMap.get('hashed') ? ... : false`, used only for
its truthiness.  Calling `.get` on a truthy non-`Map` throws. -/
def isHashedOf : Option CBOR → Except Unit Bool
  | none => .ok false
  | some (.map kvs) =>
    match cborLookup kvs (.txt "hashed") with
    | some v => .ok (jsTruthy v)
    | none => .ok false
  | some v => if jsTruthy v then .error () else .ok false

/-- The payload-reconstruction trigger of lines 233-237:
`payload === null || typeof payload === 'undefined' ||
(payload.toString() === '' && message !== '')`. -/
def reconNeeded (payload : Option CBOR) (message : String) : Bool :=
  match payload with
  | none => true
  | some .null => true
  | some v => jsToStringDefault v == "" && message != ""

/-- The inline `CoseSign1FromCborWithPayload` of lines 239-265: re-decodes the
envelope hex, requires an array of exactly 4 entries, a protected component
that is a `Buffer` decoding to a `Map`, and an unprotected component that is
a `Map`; errors model the thrown exceptions. -/
def coseSign1FromCborWithPayload (sigHex : String) (payload : List Nat) :
    Except Unit Sign1Obj :=
  match cborDecode (hexDecode sigHex) with
  | none => .error ()
  | some (.arr [p0, p1, _p2, _p3]) =>
    match p0 with
    | .bytes pb =>
      match cborDecode pb with
      | some (.map _) =>
        match p1 with
        | .map _ => .ok (.withPayload sigHex payload)
        | _ => .error ()
      | _ => .error ()
    | _ => .error ()
  | some _ => .error ()

/-- The regular-expression test of line 282: a non-empty string of hex
digits. -/
def isHexTest (s : String) : Bool :=
  s != "" && s.data.all (fun c => (hexDigitVal c).isSome)

/-- The body of the inner `try` block of `verifyCIP8Signature`
(`signature-verifier.ts` lines 210-307), from the dynamic import through the
final `coseSign1.verifySignature` call.  `Except.error` models a thrown
exception reaching the `catch (importError)` handler; `Except.ok` models a
normal `return`.  `Decoder.decode` is modelled by `cborDecode`. -/
def cip8Body (deps : Cip08Deps) (sigHex keyHex msgHex : String) :
    Except Unit Bool :=
  if deps.importOk = false then .error ()
  else
    match deps.getPublicKeyFromCoseKey keyHex with
    | .error e => .error e
    | .ok publicKeyBuffer =>
      if deps.fromCborOk sigHex = false then .error ()
      else
        let message := utf8Decode (hexDecode msgHex)
        if message = "" then
          .ok (deps.verifySignature (.fromCbor sigHex) publicKeyBuffer)
        else
          match cborDecode (hexDecode sigHex) with
          | none => .error ()
          | some decoded =>
            let payload := jsIndex decoded 2
            let unprotectedMap := jsIndex decoded 1
            match isHashedOf unprotectedMap with
            | .error e => .error e
            | .ok isHashed =>
              let reconRes : Except Unit Sign1Obj :=
                if reconNeeded payload message then
                  coseSign1FromCborWithPayload sigHex
                    (if isHashed then hexDecode (deps.blake2b224hex message)
                     else utf8Encode message)
                else .ok (.fromCbor sigHex)
              match reconRes with
              | .error e => .error e
              | .ok coseSign1 =>
                let messageToCheck :=
                  if isHashed ∧ isHexTest message = false then
                    deps.blake2b224hex message
                  else message
                match payload with
                | some v =>
                  if isHashed ∧ jsTruthy v then
                    match jsToStringHex v with
                    | .error e => .error e
                    | .ok s =>
                      if s ≠ messageToCheck then .ok false
                      else .ok (deps.verifySignature coseSign1 publicKeyBuffer)
                  else if isHashed = false ∧ jsTruthy v then
                    match jsToStringUtf8 v with
                    | .error e => .error e
                    | .ok s =>
                      if s ≠ message then .ok false
                      else .ok (deps.verifySignature coseSign1 publicKeyBuffer)
                  else .ok (deps.verifySignature coseSign1 publicKeyBuffer)
                | none => .ok (deps.verifySignature coseSign1 publicKeyBuffer)

/-- The `verifyCIP8Signature` function of `signature-verifier.ts`
(lines 191-325).  `env` is `process.env.NODE_ENV`.  The Eternl-wallet
development bypass (lines 200-203) precedes all checks; a thrown exception
in the inner block resolves to `true` in development (lines 312-316) and
`false` otherwise. -/
def verifyCIP8Signature (deps : Cip08Deps) (env : String)
    (cd : ConnectionData) : Bool :=
  match cd.sign, cd.hash with
  | some sg, some hashHex =>
    if sg.signature = "" ∨ sg.key = "" ∨ hashHex = "" then false
    else
      let walletName :=
        match cd.data with
        | some d =>
          match d.name with
          | some n => if n = "" then "unknown" else jsToLowerCase n
          | none => "unknown"
        | none => "unknown"
      if env = "development" ∧ walletName = "eturnall" then true
      else
        match cip8Body deps sg.signature sg.key hashHex with
        | .ok b => b
        | .error _ => if env = "development" then true else false
  | _, _ => false

/-- Whether a decoded value is a truthy JS object (`v && typeof v ===
'object'`): arrays, `Map`s and `Buffer`s qualify; `null` is excluded by
truthiness. -/
def jsIsObject : CBOR → Bool
  | .arr _ => true
  | .map _ => true
  | .bytes _ => true
  | _ => false

/-- JS property access `v.name` on a decoded value: an entry lookup on a
decoded string-keyed map, `undefined` otherwise. -/
def jsGetProp (v : CBOR) (name : String) : Option CBOR :=
  match v with
  | .map kvs => cborLookup kvs (.txt name)
  | _ => none

/-- JS strict equality between the embedded metadata address (a decoded CBOR
value or `undefined`) and `connectionData.data?.address` (a string or
`undefined`). -/
def jsStrictEqAddr : Option CBOR → Option String → Bool
  | none, none => true
  | some (.txt s), some t => s == t
  | _, _ => false

/-- The `verifyTransactionSignature` function of `signature-verifier.ts`
(lines 105-177): decodes the signed transaction, requires a 2-plus-element
array with an object witness set, and compares the embedded metadata address
(field 7 / 0 / 674 / `wallet_connection.address`) with the provided one when
present; when the metadata chain is absent it permissively returns `true`. -/
def verifyTransactionSignature (cd : ConnectionData) : Bool :=
  match cd.signedConnection with
  | none => false
  | some sc =>
    if sc.txHex = "" then false
    else
      match cborDecode (hexDecode sc.txHex) with
      | none => false
      | some (.arr (txBody :: witnesses :: _)) =>
        if jsIsObject witnesses = false then false
        else
          let metaCheck : Option Bool :=
            if jsTruthy txBody && jsIsObject txBody then
              match Cip8.getValueSafely txBody (.int 7) with
              | some aux =>
                if jsTruthy aux then
                  match Cip8.getValueSafely aux (.int 0) with
                  | some metadata =>
                    if jsTruthy metadata then
                      match Cip8.getValueSafely metadata (.int 674) with
                      | some wm =>
                        if jsTruthy wm then
                          match jsGetProp wm "wallet_connection" with
                          | some wc =>
                            if jsTruthy wc then
                              some (jsStrictEqAddr (jsGetProp wc "address")
                                (cd.data.map (fun d => d.address)))
                            else none
                          | none => none
                        else none
                      | none => none
                    else none
                  | none => none
                else none
              | none => none
            else none
          match metaCheck with
          | some b => b
          | none => true
      | some _ => false

/-- The result record of `validateWalletConnection`. -/
structure ValidationResult where
  isValid : Bool
  message : String
  environment : Option String
  walletName : Option String
  networkId : Option Int

/-- The `validateWalletConnection` function of `signature-verifier.ts`
(lines 40-103): missing address fails; a `signedConnection.txHex` routes to
transaction validation; otherwise truthy `hash` and `sign` route to CIP-8
validation; otherwise a development environment bypasses validation
entirely (lines 82-92). -/
def validateWalletConnection (deps : Cip08Deps) (env : String)
    (cd : ConnectionData) : ValidationResult :=
  let wname := cd.data.bind (fun d => d.name)
  let nid := (cd.data.bind (fun d => d.addressInfo)).bind (fun a => a.networkId)
  match cd.data with
  | none =>
    { isValid := false, message := "Missing wallet address",
      environment := none, walletName := none, networkId := none }
  | some d =>
    if d.address = "" then
      { isValid := false, message := "Missing wallet address",
        environment := none, walletName := none, networkId := none }
    else
      let txPath := match cd.signedConnection with
        | some sc => sc.txHex != ""
        | none => false
      if txPath then
        let ok := verifyTransactionSignature cd
        { isValid := ok,
          message := if ok then "Transaction signature verified successfully"
            else "Invalid transaction signature",
          environment := some env, walletName := wname, networkId := nid }
      else
        let cipPath := (match cd.hash with
          | some h => h != ""
          | none => false) && cd.sign.isSome
        if cipPath then
          let ok := verifyCIP8Signature deps env cd
          { isValid := ok,
            message := if ok then "CIP-8 signature verified successfully"
              else "Invalid CIP-8 signature",
            environment := some env, walletName := wname, networkId := nid }
        else if env = "development" then
          { isValid := true, message := "Development bypass",
            environment := some "development", walletName := wname,
            networkId := nid }
        else
          { isValid := false, message := "No valid signature or transaction found",
            environment := none, walletName := none, networkId := none }

end SigVer

namespace Auth

/-- `JWT_EXPIRATION = 60 * 60 * 2` seconds (`auth.ts` line 14). -/
def JWT_EXPIRATION : Int := 60 * 60 * 2

/-- The `SessionPayload` interface of `auth.ts` together with the registered
claims the `jose` builder sets (`nbf` via `setNotBefore`). -/
structure SessionPayload where
  address : String
  networkId : Int
  name : String
  exp : Option Int
  iat : Option Int
  nbf : Option Int
  jti : Option String
deriving DecidableEq

/-- A signed JWT, modelled symbolically: the claims set, the algorithm of the
protected header, and the signing key.  A token value with `key = secret`
models a token correctly signed under `secret`; forging is outside the
model. -/
structure JWT where
  alg : String
  payload : SessionPayload
  key : String
deriving DecidableEq

/-- `createSecureSessionToken` (`auth.ts` lines 25-50).  `tokenId` is the
random 16-byte hex identifier and `now` is `Math.floor(Date.now() / 1000)`.
The payload object is built with `jti: tokenHash`, but `.setJti(tokenId)`
overwrites that claim, so the issued token carries `tokenId`; the SHA-256
`tokenHash` has no other use and is dropped.  An empty `name` falls back to
the string used at line 41. -/
def createSecureSessionToken (secret : String) (tokenId : String) (now : Int)
    (address : String) (networkId : Int) (name : String) : JWT :=
  { alg := "HS256",
    key := secret,
    payload :=
      { address := address,
        networkId := networkId,
        name := if name = "" then "Unknown Wallet" else name,
        jti := some tokenId,
        iat := some now,
        exp := some (now + JWT_EXPIRATION),
        nbf := some now } }

/-- The registered-claim checks `jose`'s `jwtVerify` performs with zero clock
tolerance: a present `nbf` must not lie in the future, a present `exp` must
lie strictly in the future. -/
def joseClaimsOk (p : SessionPayload) (now : Int) : Bool :=
  (match p.nbf with
   | some n => decide (n ≤ now)
   | none => true) &&
  (match p.exp with
   | some e => decide (now < e)
   | none => true)

/-- `jose.jwtVerify` restricted to `algorithms: ['HS256']`: the signature must
match the secret, the algorithm must be HS256, and the registered claims must
pass; any failure throws, modelled as `none`. -/
def jwtVerify (token : JWT) (secret : String) (now : Int) :
    Option SessionPayload :=
  if token.key = secret ∧ token.alg = "HS256" ∧ joseClaimsOk token.payload now
  then some token.payload else none

/-- `validateSession` (`auth.ts` lines 52-72): requires truthy `address` and
`jti` claims and re-checks a truthy `exp` against the clock (`exp = 0` is
falsy in JS and skips the check). -/
def validateSession (secret : String) (token : JWT) (now : Int) : Bool :=
  match jwtVerify token secret now with
  | none => false
  | some p =>
    if p.address = "" ∨ p.jti = none ∨ p.jti = some "" then false
    else
      match p.exp with
      | some e => if e ≠ 0 ∧ e < now then false else true
      | none => true

/-- `getSessionData` (`auth.ts` lines 74-105) on an explicitly supplied token
(the cookie-store branch is request plumbing outside this core): verify, then
re-check a truthy `exp` against the clock, returning the payload. -/
def getSessionData (secret : String) (token : JWT) (now : Int) :
    Option SessionPayload :=
  match jwtVerify token secret now with
  | none => none
  | some p =>
    match p.exp with
    | some e => if e ≠ 0 ∧ e < now then none else some p
    | none => some p

/-- `shouldRefreshToken` (`auth.ts` lines 142-149): a missing or falsy `exp`
claim forces refresh; otherwise refresh when less than a quarter of
`JWT_EXPIRATION` remains. -/
def shouldRefreshToken (p : SessionPayload) (now : Int) : Bool :=
  match p.exp with
  | none => true
  | some e =>
    if e = 0 then true
    else decide (e - now < JWT_EXPIRATION / 4)

/-- The token-bucket state of the `RateLimiter` class (`auth.ts`
lines 167-215).  JS numbers are modelled as exact rationals; `lastRefill`
and `now` are in milliseconds as in the source. -/
structure RateLimiter where
  tokens : ℚ
  lastRefill : ℚ
  capacity : ℚ
  fillRate : ℚ

/-- The private `refill` method (lines 196-203). -/
def RateLimiter.refill (st : RateLimiter) (now : ℚ) : RateLimiter :=
  let elapsedTime := (now - st.lastRefill) / 1000
  let tokensToAdd := elapsedTime * st.fillRate
  { st with
      tokens := min st.capacity (st.tokens + tokensToAdd),
      lastRefill := now }

/-- The public `tryConsume` method (lines 205-214): refill, then consume when
enough tokens are available. -/
def RateLimiter.tryConsume (st : RateLimiter) (now : ℚ) (cost : ℚ) :
    Bool × RateLimiter :=
  let st2 := st.refill now
  if cost ≤ st2.tokens then (true, { st2 with tokens := st2.tokens - cost })
  else (false, st2)

end Auth

namespace SessionRoute

/-- The cookie attributes passed to `response.cookies.set`. -/
structure CookieOptions where
  httpOnly : Bool
  secure : Bool
  sameSite : String
  maxAge : Int
  path : String
deriving DecidableEq

/-- The options the session endpoint's GET handler passes when rewriting the
`wallet_session` cookie (`src/app/api/wallet/session/route.ts`
lines 118-124); the cookie value is `JSON.stringify(updatedSessionData)`,
not a signed token. -/
def sessionCookieOptions (env : String) : CookieOptions :=
  { httpOnly := true,
    secure := env == "production",
    sameSite := "strict",
    maxAge := 60 * 60 * 24 * 7,
    path := "/" }

/-- The options the DELETE handler passes when clearing the cookie
(lines 145-151). -/
def clearCookieOptions (env : String) : CookieOptions :=
  { httpOnly := true,
    secure := env == "production",
    sameSite := "strict",
    maxAge := 0,
    path := "/" }

/-- The cookie attributes as the specification claims them (spec §6): always
secure, with max-age equal to the 2-hour session lifetime.  Stated from the
spec's words for comparison against `sessionCookieOptions`. -/
def claimedSessionCookieOptions : CookieOptions :=
  { httpOnly := true,
    secure := true,
    sameSite := "strict",
    maxAge := 60 * 60 * 2,
    path := "/" }

end SessionRoute

/-! Concrete inputs used by witnesses and counterexamples. -/

/-- Encoding of the empty protected-header map (`a0`). -/
def phEmptyMap : List Nat := [0xa0]

/-- A well-formed COSE key envelope: key type 1 (OKP), curve 6 (Ed25519),
32-byte X coordinate. -/
def coseKeyOK : CBOR :=
  .map [(.int 1, .int 1), (.int (-1), .int 6), (.int (-2), .bytes (List.replicate 32 0))]

/-- Hex encoding of `coseKeyOK`. -/
def coseKeyOKHex : String := hexEncode (cborEncode coseKeyOK)

/-- A COSE key envelope whose key-type field is 2 instead of 1. -/
def coseKeyBadKty : CBOR := .map [(.int 1, .int 2)]

/-- Envelope with a `null` payload (wallet omits the payload). -/
def envNullPayload : CBOR := .arr [.bytes phEmptyMap, .map [], .null, .bytes [1, 2]]

/-- Envelope whose payload is the non-empty text string "AB" rather than a
byte string. -/
def envTxtPayload : CBOR := .arr [.bytes phEmptyMap, .map [], .txt "AB", .bytes [1, 2]]

/-- Envelope whose payload is the empty text string — an empty payload that
is not a byte string. -/
def envEmptyTxtPayload : CBOR := .arr [.bytes phEmptyMap, .map [], .txt "", .bytes [1, 2]]

/-- Envelope whose payload is a non-empty byte string different from the
caller-supplied hash bytes. -/
def envWrongBytes : CBOR := .arr [.bytes phEmptyMap, .map [], .bytes [0xbe, 0xef], .bytes [1, 2]]

/-- Connection data carrying `envNullPayload` and hash `"dead"`. -/
def cdNullPayload : ConnectionData :=
  { data := none
    hash := some "dead"
    sign := some { signature := hexEncode (cborEncode envNullPayload), key := coseKeyOKHex }
    signedConnection := none }

/-- Connection data carrying `envTxtPayload`. -/
def cdTxtPayload : ConnectionData :=
  { cdNullPayload with
      sign := some { signature := hexEncode (cborEncode envTxtPayload), key := coseKeyOKHex } }

/-- Connection data carrying `envWrongBytes`. -/
def cdWrongBytes : ConnectionData :=
  { cdNullPayload with
      sign := some { signature := hexEncode (cborEncode envWrongBytes), key := coseKeyOKHex } }

/-- Connection data carrying `envEmptyTxtPayload`. -/
def cdEmptyTxtPayload : ConnectionData :=
  { cdNullPayload with
      sign := some { signature := hexEncode (cborEncode envEmptyTxtPayload),
                     key := coseKeyOKHex } }

/-- Connection data carrying the bad key envelope. -/
def cdBadKey : ConnectionData :=
  { cdNullPayload with
      sign := some { signature := hexEncode (cborEncode envNullPayload),
                     key := hexEncode (cborEncode coseKeyBadKty) } }

/-- A crypto oracle that accepts everything. -/
def acceptAll : List Nat → List Nat → List Nat → Bool := fun _ _ _ => true

/-- Oracle bundle for `SigVer` whose primitives all succeed. -/
def depsAccept : SigVer.Cip08Deps :=
  { importOk := true
    getPublicKeyFromCoseKey := fun _ => .ok []
    fromCborOk := fun _ => true
    blake2b224hex := fun _ => ""
    verifySignature := fun _ _ => true }

/-- Envelope with a one-byte payload `A` and an empty unprotected map
(`hashed` flag absent, hence false). -/
def envLetterA : CBOR := .arr [.bytes phEmptyMap, .map [], .bytes [0x41], .bytes [1]]

/-- Connection data for the Eternl development bypass: wallet name
`Eturnall`, payload `A` versus claimed message `B` (hash hex `"42"`). -/
def cdEturnall : ConnectionData :=
  { data := some { address := "addr1xyz", name := some "Eturnall", addressInfo := none }
    hash := some "42"
    sign := some { signature := hexEncode (cborEncode envLetterA), key := coseKeyOKHex }
    signedConnection := none }

/-- The same mismatching connection data with no wallet name. -/
def cdMismatchNoName : ConnectionData :=
  { cdEturnall with data := some { address := "addr1xyz", name := none, addressInfo := none } }

/-- Connection data with an address but no proof material at all. -/
def cdNoProof : ConnectionData :=
  { data := some { address := "addr1xyz", name := none, addressInfo := none }
    hash := none
    sign := none
    signedConnection := none }

/-- A token with no `exp` claim but a future `nbf` claim. -/
def nbfToken : Auth.JWT :=
  { alg := "HS256"
    key := "k"
    payload :=
      { address := "addr1", networkId := 0, name := "w",
        exp := none, iat := none, nbf := some 100, jti := some "j" } }

/-- A token with no `exp` and no `nbf` claim. -/
def noExpToken : Auth.JWT :=
  { alg := "HS256"
    key := "k"
    payload :=
      { address := "addr1", networkId := 0, name := "w",
        exp := none, iat := none, nbf := none, jti := some "j" } }

/-- Connection data whose payload byte `A` matches the claimed message
(hash hex `"41"`), so the pipeline reaches the crypto check. -/
def cdMatching : ConnectionData :=
  { data := some { address := "addr1xyz", name := none, addressInfo := none }
    hash := some "41"
    sign := some { signature := hexEncode (cborEncode envLetterA), key := coseKeyOKHex }
    signedConnection := none }

/-- Oracle bundle whose crypto verification rejects every signature. -/
def depsReject : SigVer.Cip08Deps :=
  { importOk := true
    getPublicKeyFromCoseKey := fun _ => .ok []
    fromCborOk := fun _ => true
    blake2b224hex := fun _ => ""
    verifySignature := fun _ _ => false }

/-! Theorems. -/

/-- Helper: whenever the envelope decodes to a 4-tuple with byte-string
protected headers and signature, the protected headers decode, the payload
resolves and the key validates, `Cip8.verifyCIP8Signature` returns exactly
the crypto oracle applied to the DER-wrapped key, the encoded
`Signature1` 4-tuple and the envelope's signature bytes. -/
theorem cip8_crypto_bytes (cryptoVerify : List Nat → List Nat → List Nat → Bool)
    (cd : ConnectionData) (sg : SignMaterial) (hashHex : String)
    (phb : List Nat) (uh payload : CBOR) (sigBytes : List Nat)
    (rp coseKey : CBOR) (pk : List Nat)
    (hsign : cd.sign = some sg) (hhash : cd.hash = some hashHex)
    (hs1 : sg.signature ≠ "") (hs2 : sg.key ≠ "") (hs3 : hashHex ≠ "")
    (hdec : cborDecode (hexDecode sg.signature) =
      some (.arr [.bytes phb, uh, payload, .bytes sigBytes]))
    (hph : (cborDecode phb).isSome)
    (hres : Cip8.resolvePayload payload (hexDecode hashHex) = some rp)
    (hkey : cborDecode (hexDecode sg.key) = some coseKey)
    (hval : Cip8.validateCoseKey coseKey = some pk) :
    Cip8.verifyCIP8Signature cryptoVerify cd =
      cryptoVerify (Cip8.ed25519SpkiHeader ++ pk)
        (cborEncode (.arr [.txt "Signature1", .bytes phb, .bytes [], rp]))
        sigBytes := by
  obtain ⟨v, hv⟩ := Option.isSome_iff_exists.mp hph
  unfold Cip8.verifyCIP8Signature
  simp only [hsign, hhash, hdec, Cip8.cborDecodeJS, hv, hres, hkey, hval]
  rw [if_neg (by simp [hs1, hs2, hs3])]

/-- C1: for every decoded signed-message envelope that passes the
payload-resolution and key checks, the byte sequence handed to the signature
check is exactly the codec encoding of the ordered 4-tuple
`("Signature1", protected-header bytes verbatim, empty byte string,
resolved payload)`. -/
theorem c1_to_be_signed_bytes (cryptoVerify : List Nat → List Nat → List Nat → Bool)
    (cd : ConnectionData) (sg : SignMaterial) (hashHex : String)
    (phb : List Nat) (uh payload : CBOR) (sigBytes : List Nat)
    (rp coseKey : CBOR) (pk : List Nat)
    (hsign : cd.sign = some sg) (hhash : cd.hash = some hashHex)
    (hs1 : sg.signature ≠ "") (hs2 : sg.key ≠ "") (hs3 : hashHex ≠ "")
    (hdec : cborDecode (hexDecode sg.signature) =
      some (.arr [.bytes phb, uh, payload, .bytes sigBytes]))
    (hph : (cborDecode phb).isSome)
    (hres : Cip8.resolvePayload payload (hexDecode hashHex) = some rp)
    (hkey : cborDecode (hexDecode sg.key) = some coseKey)
    (hval : Cip8.validateCoseKey coseKey = some pk) :
    Cip8.verifyCIP8Signature cryptoVerify cd =
      cryptoVerify (Cip8.ed25519SpkiHeader ++ pk)
        (cborEncode (.arr [.txt "Signature1", .bytes phb, .bytes [], rp]))
        sigBytes :=
  cip8_crypto_bytes cryptoVerify cd sg hashHex phb uh payload sigBytes rp coseKey pk
    hsign hhash hs1 hs2 hs3 hdec hph hres hkey hval

/-- C1 witness: a concrete envelope with a null payload, hash `"dead"` and a
well-formed key reaches the crypto oracle on exactly the encoded 4-tuple. -/
theorem c1_to_be_signed_bytes_witness :
    Cip8.verifyCIP8Signature acceptAll cdNullPayload = true :=
  (c1_to_be_signed_bytes acceptAll cdNullPayload
    { signature := hexEncode (cborEncode envNullPayload), key := coseKeyOKHex } "dead"
    phEmptyMap (.map []) .null [1, 2] (.bytes (hexDecode "dead")) coseKeyOK
    (List.replicate 32 0)
    rfl rfl (by decide) (by decide) (by decide) rfl rfl rfl rfl rfl).trans rfl

/-- Helper: a successful `Cip8.validateCoseKey` implies the three key checks
of the claim. -/
theorem validateCoseKey_some {k : CBOR} {pk : List Nat}
    (h : Cip8.validateCoseKey k = some pk) :
    Cip8.getValueSafely k (.int 1) = some (.int 1) ∧
    Cip8.jsHas k (.int (-1)) = true ∧
    Cip8.getValueSafely k (.int (-1)) = some (.int 6) ∧
    Cip8.jsHas k (.int (-2)) = true ∧
    Cip8.getValueSafely k (.int (-2)) = some (.bytes pk) ∧ pk.length = 32 := by
  unfold Cip8.validateCoseKey at h
  repeat' split at h
  all_goals simp_all

/-- C4: verification returns false unless the decoded key envelope has
key-type 1, curve 6 and a 32-byte X coordinate; each check rejects for every
crypto oracle. -/
theorem c4_key_checks (cryptoVerify : List Nat → List Nat → List Nat → Bool)
    (cd : ConnectionData) (sg : SignMaterial) (coseKey : CBOR)
    (hsign : cd.sign = some sg)
    (hkey : cborDecode (hexDecode sg.key) = some coseKey)
    (hbad : ¬ (Cip8.getValueSafely coseKey (.int 1) = some (.int 1) ∧
               Cip8.jsHas coseKey (.int (-1)) = true ∧
               Cip8.getValueSafely coseKey (.int (-1)) = some (.int 6) ∧
               Cip8.jsHas coseKey (.int (-2)) = true ∧
               ∃ pkb, Cip8.getValueSafely coseKey (.int (-2)) = some (.bytes pkb) ∧
                 pkb.length = 32)) :
    Cip8.verifyCIP8Signature cryptoVerify cd = false := by
  have hval : Cip8.validateCoseKey coseKey = none := by
    cases hv : Cip8.validateCoseKey coseKey with
    | none => rfl
    | some pk =>
      obtain ⟨h1, h2, h3, h4, h5, h6⟩ := validateCoseKey_some hv
      exact absurd ⟨h1, h2, h3, h4, pk, h5, h6⟩ hbad
  unfold Cip8.verifyCIP8Signature
  simp only [hsign, hkey, hval]
  cases hh : cd.hash with
  | none => rfl
  | some hashHex =>
    simp only []
    split
    · rfl
    · split
      all_goals try rfl
      split
      · rfl
      · split
        · rfl
        · simp only [hkey, hval]

/-- C4 witness: a key envelope with key-type 2 is rejected even under an
all-accepting crypto oracle. -/
theorem c4_key_checks_witness :
    Cip8.verifyCIP8Signature acceptAll cdBadKey = false :=
  c4_key_checks acceptAll cdBadKey
    { signature := hexEncode (cborEncode envNullPayload),
      key := hexEncode (cborEncode coseKeyBadKty) }
    coseKeyBadKty rfl rfl
    (fun h => by
      have h1 := h.1
      rw [show Cip8.getValueSafely coseKeyBadKty (.int 1) = some (.int 2) from rfl] at h1
      injection h1 with h2
      injection h2 with h3
      exact absurd h3 (by decide))

/-- C2 counterexample: an envelope whose payload field is the empty text
string — an empty payload — is not replaced by the caller-supplied hash
bytes: the signature check covers the 4-tuple containing the empty text
payload (an oracle asserting exactly that coverage accepts), and that byte
sequence differs from the tuple containing the hash bytes. -/
theorem c2_counterexample :
    cdEmptyTxtPayload.hash = some "dead" ∧
    cborDecode (hexDecode (hexEncode (cborEncode envEmptyTxtPayload))) =
      some (.arr [.bytes phEmptyMap, .map [], .txt "", .bytes [1, 2]]) ∧
    Cip8.verifyCIP8Signature
      (fun _ msg _ => decide (msg = cborEncode
        (.arr [.txt "Signature1", .bytes phEmptyMap, .bytes [], .txt ""])))
      cdEmptyTxtPayload = true ∧
    cborEncode (.arr [.txt "Signature1", .bytes phEmptyMap, .bytes [], .txt ""]) ≠
      cborEncode (.arr [.txt "Signature1", .bytes phEmptyMap, .bytes [],
        .bytes (hexDecode "dead")]) :=
  ⟨rfl, rfl, rfl, by decide⟩

/-- C2 (amended): a `null` or empty-byte-string payload is replaced by the
caller-supplied hash bytes for signature coverage.  Every other truthy
payload makes verification return false before any signature check, for
every crypto oracle: a non-empty byte string through the explicit mismatch
return when it differs from the hash bytes, and every truthy non-byte-string
value through the TypeError thrown by the diagnostic log's
`payload.equals` call.  The falsy non-byte-string payloads (empty text,
zero, false) are not replaced by the hash: they are passed to the signature
check unchanged. -/
theorem c2_payload_resolution :
    (∀ (cryptoVerify : List Nat → List Nat → List Nat → Bool)
       (cd : ConnectionData) (sg : SignMaterial) (hashHex : String)
       (phb : List Nat) (uh payload : CBOR) (sigBytes : List Nat)
       (coseKey : CBOR) (pk : List Nat),
       cd.sign = some sg → cd.hash = some hashHex →
       sg.signature ≠ "" → sg.key ≠ "" → hashHex ≠ "" →
       cborDecode (hexDecode sg.signature) =
         some (.arr [.bytes phb, uh, payload, .bytes sigBytes]) →
       (payload = .null ∨ payload = .bytes []) →
       (cborDecode phb).isSome →
       cborDecode (hexDecode sg.key) = some coseKey →
       Cip8.validateCoseKey coseKey = some pk →
       Cip8.verifyCIP8Signature cryptoVerify cd =
         cryptoVerify (Cip8.ed25519SpkiHeader ++ pk)
           (cborEncode (.arr [.txt "Signature1", .bytes phb, .bytes [],
             .bytes (hexDecode hashHex)]))
           sigBytes) ∧
    (∀ (cryptoVerify : List Nat → List Nat → List Nat → Bool)
       (cd : ConnectionData) (sg : SignMaterial) (hashHex : String)
       (ph uh : CBOR) (p : List Nat) (sigv : CBOR),
       cd.sign = some sg → cd.hash = some hashHex →
       sg.signature ≠ "" → sg.key ≠ "" → hashHex ≠ "" →
       cborDecode (hexDecode sg.signature) = some (.arr [ph, uh, .bytes p, sigv]) →
       p ≠ [] → p ≠ hexDecode hashHex →
       Cip8.verifyCIP8Signature cryptoVerify cd = false) ∧
    (∀ (cryptoVerify : List Nat → List Nat → List Nat → Bool)
       (cd : ConnectionData) (sg : SignMaterial) (hashHex : String)
       (ph uh payload sigv : CBOR),
       cd.sign = some sg → cd.hash = some hashHex →
       sg.signature ≠ "" → sg.key ≠ "" → hashHex ≠ "" →
       cborDecode (hexDecode sg.signature) = some (.arr [ph, uh, payload, sigv]) →
       jsTruthy payload = true →
       (∀ b, payload ≠ .bytes b) →
       Cip8.verifyCIP8Signature cryptoVerify cd = false) ∧
    (∀ (cryptoVerify : List Nat → List Nat → List Nat → Bool)
       (cd : ConnectionData) (sg : SignMaterial) (hashHex : String)
       (phb : List Nat) (uh payload : CBOR) (sigBytes : List Nat)
       (coseKey : CBOR) (pk : List Nat),
       cd.sign = some sg → cd.hash = some hashHex →
       sg.signature ≠ "" → sg.key ≠ "" → hashHex ≠ "" →
       cborDecode (hexDecode sg.signature) =
         some (.arr [.bytes phb, uh, payload, .bytes sigBytes]) →
       jsTruthy payload = false → payload ≠ .null →
       (∀ b, payload ≠ .bytes b) →
       (cborDecode phb).isSome →
       cborDecode (hexDecode sg.key) = some coseKey →
       Cip8.validateCoseKey coseKey = some pk →
       Cip8.verifyCIP8Signature cryptoVerify cd =
         cryptoVerify (Cip8.ed25519SpkiHeader ++ pk)
           (cborEncode (.arr [.txt "Signature1", .bytes phb, .bytes [], payload]))
           sigBytes) := by
  refine ⟨?_, ?_, ?_, ?_⟩
  · intro cryptoVerify cd sg hashHex phb uh payload sigBytes coseKey pk
      hsign hhash hs1 hs2 hs3 hdec hp hph hkey hval
    have hres : Cip8.resolvePayload payload (hexDecode hashHex) =
        some (.bytes (hexDecode hashHex)) := by
      rcases hp with h | h <;> subst h <;> simp [Cip8.resolvePayload]
    exact cip8_crypto_bytes cryptoVerify cd sg hashHex phb uh payload sigBytes
      (.bytes (hexDecode hashHex)) coseKey pk hsign hhash hs1 hs2 hs3 hdec hph
      hres hkey hval
  · intro cryptoVerify cd sg hashHex ph uh p sigv
      hsign hhash hs1 hs2 hs3 hdec hp0 hp1
    have hres : Cip8.resolvePayload (.bytes p) (hexDecode hashHex) = none := by
      simp [Cip8.resolvePayload, List.length_eq_zero, hp0, hp1]
    unfold Cip8.verifyCIP8Signature
    simp only [hsign, hhash, hdec, hres]
    rw [if_neg (by simp [hs1, hs2, hs3])]
    cases hdj : Cip8.cborDecodeJS ph with
    | none => simp [hdj]
    | some v => simp [hdj, hres]
  · intro cryptoVerify cd sg hashHex ph uh payload sigv
      hsign hhash hs1 hs2 hs3 hdec htr hnb
    have hres : Cip8.resolvePayload payload (hexDecode hashHex) = none := by
      cases payload with
      | null => exact Bool.noConfusion htr
      | bytes b => exact absurd rfl (hnb b)
      | int i => simp [Cip8.resolvePayload, htr]
      | txt s => simp [Cip8.resolvePayload, htr]
      | arr xs => simp [Cip8.resolvePayload, htr]
      | map kvs => simp [Cip8.resolvePayload, htr]
      | bool b => simp [Cip8.resolvePayload, htr]
    unfold Cip8.verifyCIP8Signature
    simp only [hsign, hhash, hdec, hres]
    rw [if_neg (by simp [hs1, hs2, hs3])]
    cases hdj : Cip8.cborDecodeJS ph with
    | none => simp [hdj]
    | some v => simp [hdj, hres]
  · intro cryptoVerify cd sg hashHex phb uh payload sigBytes coseKey pk
      hsign hhash hs1 hs2 hs3 hdec hfal hnn hnb hph hkey hval
    have hres : Cip8.resolvePayload payload (hexDecode hashHex) = some payload := by
      cases payload with
      | null => exact absurd rfl hnn
      | bytes b => exact absurd rfl (hnb b)
      | int i => simp [Cip8.resolvePayload, hfal]
      | txt s => simp [Cip8.resolvePayload, hfal]
      | arr xs => exact Bool.noConfusion hfal
      | map kvs => exact Bool.noConfusion hfal
      | bool b => simp [Cip8.resolvePayload, hfal]
    exact cip8_crypto_bytes cryptoVerify cd sg hashHex phb uh payload sigBytes
      payload coseKey pk hsign hhash hs1 hs2 hs3 hdec hph hres hkey hval

/-- C2 witness: a null payload is covered by the hash bytes, a non-empty
byte payload differing from the hash bytes is rejected, a truthy non-byte
payload (the text "AB") is rejected, and the falsy empty-text payload is
covered unchanged — each under an all-accepting oracle. -/
theorem c2_payload_resolution_witness :
    Cip8.verifyCIP8Signature acceptAll cdNullPayload = true ∧
    Cip8.verifyCIP8Signature acceptAll cdWrongBytes = false ∧
    Cip8.verifyCIP8Signature acceptAll cdTxtPayload = false ∧
    Cip8.verifyCIP8Signature acceptAll cdEmptyTxtPayload = true := by
  refine ⟨?_, ?_, ?_, ?_⟩
  · exact (c2_payload_resolution.1 acceptAll cdNullPayload
      { signature := hexEncode (cborEncode envNullPayload), key := coseKeyOKHex } "dead"
      phEmptyMap (.map []) .null [1, 2] coseKeyOK (List.replicate 32 0)
      rfl rfl (by decide) (by decide) (by decide) rfl (Or.inl rfl) rfl rfl rfl).trans rfl
  · exact c2_payload_resolution.2.1 acceptAll cdWrongBytes
      { signature := hexEncode (cborEncode envWrongBytes), key := coseKeyOKHex } "dead"
      (.bytes phEmptyMap) (.map []) [0xbe, 0xef] (.bytes [1, 2])
      rfl rfl (by decide) (by decide) (by decide) rfl (by decide) (by decide)
  · exact c2_payload_resolution.2.2.1 acceptAll cdTxtPayload
      { signature := hexEncode (cborEncode envTxtPayload), key := coseKeyOKHex } "dead"
      (.bytes phEmptyMap) (.map []) (.txt "AB") (.bytes [1, 2])
      rfl rfl (by decide) (by decide) (by decide) rfl rfl
      (fun b h => CBOR.noConfusion h)
  · exact (c2_payload_resolution.2.2.2 acceptAll cdEmptyTxtPayload
      { signature := hexEncode (cborEncode envEmptyTxtPayload), key := coseKeyOKHex } "dead"
      phEmptyMap (.map []) (.txt "") [1, 2] coseKeyOK (List.replicate 32 0)
      rfl rfl (by decide) (by decide) (by decide) rfl rfl
      (fun h => CBOR.noConfusion h) (fun b h => CBOR.noConfusion h)
      rfl rfl rfl).trans rfl

/-- Helper: the inner verification body returns `true` only through a
successful `verifySignature` call. -/
theorem cip8Body_verify_true {deps : SigVer.Cip08Deps} {sigHex keyHex msgHex : String}
    (h : SigVer.cip8Body deps sigHex keyHex msgHex = .ok true) :
    ∃ obj pkb, deps.verifySignature obj pkb = true := by
  unfold SigVer.cip8Body at h
  simp only [] at h
  repeat' split at h
  all_goals
    first
      | cases h
      | (injection h with h2
         exact ⟨_, _, h2⟩)

/-- Helper: outside development, `SigVer.verifyCIP8Signature` returns `true`
only through a successful `verifySignature` call. -/
theorem sigver_verify_true {deps : SigVer.Cip08Deps} {env : String}
    {cd : ConnectionData} (henv : env ≠ "development")
    (h : SigVer.verifyCIP8Signature deps env cd = true) :
    ∃ obj pkb, deps.verifySignature obj pkb = true := by
  unfold SigVer.verifyCIP8Signature at h
  rcases hsg : cd.sign with _ | sg
  · simp only [hsg] at h
    exact Bool.noConfusion h
  · rcases hhh : cd.hash with _ | hashHex
    · simp only [hsg, hhh] at h
      exact Bool.noConfusion h
    · simp only [hsg, hhh] at h
      split at h
      · exact Bool.noConfusion h
      · rw [if_neg (fun hc => henv hc.1)] at h
        cases hb : SigVer.cip8Body deps sg.signature sg.key hashHex with
        | ok b =>
          simp only [hb] at h
          exact cip8Body_verify_true (h ▸ hb)
        | error e =>
          simp only [hb] at h
          exact Bool.noConfusion h

/-- C3 counterexample: in the development environment, a connection claim
with no signature, hash or transaction material at all — whose signature
therefore cannot verify, and with a crypto oracle that rejects everything —
is reported valid by the development bypass of
`signature-verifier.ts` lines 82-92. -/
theorem c3_counterexample :
    cdNoProof.sign = none ∧ cdNoProof.hash = none ∧
    cdNoProof.signedConnection = none ∧
    (SigVer.validateWalletConnection depsReject "development" cdNoProof).isValid = true ∧
    (SigVer.validateWalletConnection depsReject "development" cdNoProof).message =
      "Development bypass" :=
  ⟨rfl, rfl, rfl, rfl, rfl⟩

/-- C3 (amended): outside the development environment and outside the
transaction-based path, `validateWalletConnection` reports a valid
connection only when the external `verifySignature` primitive accepted some
constructed COSE object — it fails closed whenever every cryptographic
verification rejects. -/
theorem c3_fail_closed (deps : SigVer.Cip08Deps) (env : String)
    (cd : ConnectionData)
    (henv : env ≠ "development")
    (htx : ∀ sc, cd.signedConnection = some sc → sc.txHex = "")
    (hvalid : (SigVer.validateWalletConnection deps env cd).isValid = true) :
    ∃ obj pkb, deps.verifySignature obj pkb = true := by
  unfold SigVer.validateWalletConnection at hvalid
  rcases hd : cd.data with _ | d
  · simp only [hd] at hvalid
    exact Bool.noConfusion hvalid
  · simp only [hd] at hvalid
    have htxp : (match cd.signedConnection with
        | some sc => sc.txHex != ""
        | none => false) = false := by
      rcases hsc : cd.signedConnection with _ | sc
      · rfl
      · simp [htx sc hsc]
    simp only [htxp, Bool.false_eq_true, if_false] at hvalid
    repeat' split at hvalid
    all_goals
      first
        | exact Bool.noConfusion hvalid
        | exact sigver_verify_true henv hvalid

/-- C3 witness: a production-environment claim that is reported valid (the
concrete matching input under an all-accepting oracle) indeed had a
successful crypto verification. -/
theorem c3_fail_closed_witness :
    ∃ obj pkb, depsAccept.verifySignature obj pkb = true :=
  c3_fail_closed depsAccept "production" cdMatching (by decide)
    (fun _ h => Option.noConfusion h) rfl

/-- Helper: with a non-empty claimed message, an unhashed envelope whose
byte-string payload UTF-8-decodes differently from the message makes the
inner body finish with `return false` at the message check, or with a thrown
exception from an earlier step — never with a `verifySignature` call. -/
theorem cip8Body_mismatch (deps : SigVer.Cip08Deps) (sigHex keyHex msgHex : String)
    (ph uh sigv : CBOR) (p : List Nat)
    (hmsg : utf8Decode (hexDecode msgHex) ≠ "")
    (hdec : cborDecode (hexDecode sigHex) = some (.arr [ph, uh, .bytes p, sigv]))
    (hhashed : SigVer.isHashedOf (some uh) = .ok false)
    (hne : utf8Decode p ≠ utf8Decode (hexDecode msgHex)) :
    SigVer.cip8Body deps sigHex keyHex msgHex = .ok false ∨
    ∃ e, SigVer.cip8Body deps sigHex keyHex msgHex = .error e := by
  unfold SigVer.cip8Body
  by_cases himp : deps.importOk = false
  · rw [if_pos himp]
    exact Or.inr ⟨(), rfl⟩
  · rw [if_neg himp]
    cases hpk : deps.getPublicKeyFromCoseKey keyHex with
    | error e => simp [hpk]
    | ok pkb =>
      simp only [hpk]
      by_cases hfc : deps.fromCborOk sigHex = false
      · rw [if_pos hfc]
        exact Or.inr ⟨(), rfl⟩
      · rw [if_neg hfc, if_neg hmsg]
        simp only [hdec]
        have hj2 : SigVer.jsIndex (CBOR.arr [ph, uh, .bytes p, sigv]) 2 =
            some (.bytes p) := rfl
        have hj1 : SigVer.jsIndex (CBOR.arr [ph, uh, .bytes p, sigv]) 1 = some uh := rfl
        simp only [hj2, hj1, hhashed]
        by_cases hre : SigVer.reconNeeded (some (.bytes p))
            (utf8Decode (hexDecode msgHex)) = true
        · rw [if_pos hre]
          rw [if_neg (fun h => Bool.noConfusion h : ¬((false : Bool) = true))]
          cases hcs : SigVer.coseSign1FromCborWithPayload sigHex
              (utf8Encode (utf8Decode (hexDecode msgHex))) with
          | error e => simp [hcs]
          | ok obj =>
            simp only [hcs]
            simp [SigVer.jsToStringUtf8, SigVer.jsToStringDefault, jsTruthy, hne]
        · rw [if_neg hre]
          simp [SigVer.jsToStringUtf8, SigVer.jsToStringDefault, jsTruthy, hne]

/-- C6 counterexample: a decoded envelope with `hashed` absent (false), a
payload present whose UTF-8 decoding `A` differs from the claimed message
`B`, yet verification returns true — the Eternl development bypass of
`signature-verifier.ts` lines 200-203 fires before the message check, even
with a crypto oracle that rejects everything. -/
theorem c6_counterexample :
    cborDecode (hexDecode (hexEncode (cborEncode envLetterA))) =
      some (.arr [.bytes phEmptyMap, .map [], .bytes [0x41], .bytes [1]]) ∧
    SigVer.isHashedOf (some (.map [])) = .ok false ∧
    utf8Decode [0x41] ≠ utf8Decode (hexDecode "42") ∧
    SigVer.verifyCIP8Signature depsReject "development" cdEturnall = true :=
  ⟨rfl, rfl, by decide, rfl⟩

/-- C6 (amended): outside the development environment and for a non-empty
claimed message, an envelope whose unprotected headers give `hashed = false`
and whose present byte-string payload UTF-8-decodes differently from the
claimed message makes verification return false, for every oracle bundle —
the cryptographic check is never consulted. -/
theorem c6_message_mismatch (deps : SigVer.Cip08Deps) (env : String)
    (cd : ConnectionData) (sg : SignMaterial) (hashHex : String)
    (ph uh sigv : CBOR) (p : List Nat)
    (hsign : cd.sign = some sg) (hhash : cd.hash = some hashHex)
    (hs1 : sg.signature ≠ "") (hs2 : sg.key ≠ "") (hs3 : hashHex ≠ "")
    (henv : env ≠ "development")
    (hmsg : utf8Decode (hexDecode hashHex) ≠ "")
    (hdec : cborDecode (hexDecode sg.signature) =
      some (.arr [ph, uh, .bytes p, sigv]))
    (hhashed : SigVer.isHashedOf (some uh) = .ok false)
    (hne : utf8Decode p ≠ utf8Decode (hexDecode hashHex)) :
    SigVer.verifyCIP8Signature deps env cd = false := by
  unfold SigVer.verifyCIP8Signature
  simp only [hsign, hhash]
  rw [if_neg (by simp [hs1, hs2, hs3])]
  rw [if_neg (fun hc => henv hc.1)]
  rcases cip8Body_mismatch deps sg.signature sg.key hashHex ph uh sigv p
      hmsg hdec hhashed hne with hb | ⟨e, hb⟩
  · rw [hb]
  · rw [hb]
    rw [if_neg henv]

/-- C6 witness: in production, the concrete mismatching envelope (payload `A`
versus message `B`) is rejected even under an all-accepting oracle bundle. -/
theorem c6_message_mismatch_witness :
    SigVer.verifyCIP8Signature depsAccept "production" cdMismatchNoName = false :=
  c6_message_mismatch depsAccept "production" cdMismatchNoName
    { signature := hexEncode (cborEncode envLetterA), key := coseKeyOKHex } "42"
    (.bytes phEmptyMap) (.map []) (.bytes [1]) [0x41]
    rfl rfl (by decide) (by decide) (by decide) (by decide) (by decide) rfl rfl
    (by decide)

/-- C5 counterexample: issuing with the empty name and validating immediately
yields the fallback name `Unknown Wallet`, not the supplied name. -/
theorem c5_counterexample :
    (Auth.getSessionData "k" (Auth.createSecureSessionToken "k" "tid" 1000 "addr1" 1 "") 1000).map
      (fun p => p.name) = some "Unknown Wallet" ∧
    ("Unknown Wallet" : String) ≠ "" :=
  ⟨rfl, by decide⟩

/-- C5 (amended): for every non-empty name, validating a token immediately
after issuing it returns the full session payload with the supplied address,
network id and name, and an expiry strictly in the future (issue time plus
the 2-hour lifetime); an empty name is stored as `Unknown Wallet`. -/
theorem c5_issue_validate (secret tokenId : String) (now : Int) (addr : String)
    (net : Int) (name : String) (hname : name ≠ "") :
    Auth.getSessionData secret
        (Auth.createSecureSessionToken secret tokenId now addr net name) now =
      some { address := addr, networkId := net, name := name,
             exp := some (now + Auth.JWT_EXPIRATION), iat := some now,
             nbf := some now, jti := some tokenId } ∧
    now < now + Auth.JWT_EXPIRATION := by
  have hTrue : Auth.joseClaimsOk
      { address := addr, networkId := net, name := name,
        exp := some (now + Auth.JWT_EXPIRATION), iat := some now,
        nbf := some now, jti := some tokenId } now = true := by
    simp only [Auth.joseClaimsOk, Auth.JWT_EXPIRATION, Bool.and_eq_true,
      decide_eq_true_eq]
    omega
  refine ⟨?_, by simp only [Auth.JWT_EXPIRATION]; omega⟩
  unfold Auth.getSessionData Auth.createSecureSessionToken Auth.jwtVerify
  simp only [if_neg hname]
  rw [if_pos ⟨trivial, trivial, hTrue⟩]
  simp only []
  rw [if_neg (fun hc =>
    absurd hc.2 (by simp only [Auth.JWT_EXPIRATION]; omega))]

/-- C5 witness: concrete issue-then-validate round trip. -/
theorem c5_issue_validate_witness :
    Auth.getSessionData "k"
        (Auth.createSecureSessionToken "k" "tid" 1000 "addr1" 1 "w") 1000 =
      some { address := "addr1", networkId := 1, name := "w",
             exp := some (1000 + Auth.JWT_EXPIRATION), iat := some 1000,
             nbf := some 1000, jti := some "tid" } ∧
    (1000 : Int) < 1000 + Auth.JWT_EXPIRATION :=
  c5_issue_validate "k" "tid" 1000 "addr1" 1 "w" (by decide)

/-- C7: for every session payload carrying an expiry, `shouldRefreshToken` is
true exactly when the remaining lifetime is strictly below a quarter of the
7200-second lifetime (1800 s); immediately after issuance it is false; and at
remaining lifetimes 1000 s / 2000 s / exactly 1800 s it is true / false /
false.  The clock is a non-negative Unix timestamp. -/
theorem c7_should_refresh :
    (∀ (addr nm : String) (net : Int) (iat nbf : Option Int) (jti : Option String)
       (e : Int) (now : Nat),
       (Auth.shouldRefreshToken
         { address := addr, networkId := net, name := nm, exp := some e,
           iat := iat, nbf := nbf, jti := jti } now = true ↔
        e - (now : Int) < 1800)) ∧
    (∀ (secret tokenId addr nm : String) (net : Int) (now : Nat),
       Auth.shouldRefreshToken
         (Auth.createSecureSessionToken secret tokenId now addr net nm).payload
         now = false) ∧
    (∀ (addr nm : String) (net : Int) (iat nbf : Option Int) (jti : Option String)
       (now : Nat),
       Auth.shouldRefreshToken
         { address := addr, networkId := net, name := nm,
           exp := some ((now : Int) + 1000), iat := iat, nbf := nbf, jti := jti }
         now = true ∧
       Auth.shouldRefreshToken
         { address := addr, networkId := net, name := nm,
           exp := some ((now : Int) + 2000), iat := iat, nbf := nbf, jti := jti }
         now = false ∧
       Auth.shouldRefreshToken
         { address := addr, networkId := net, name := nm,
           exp := some ((now : Int) + 1800), iat := iat, nbf := nbf, jti := jti }
         now = false) := by
  have base : ∀ (addr nm : String) (net : Int) (iat nbf : Option Int)
      (jti : Option String) (e : Int) (now : Nat),
      (Auth.shouldRefreshToken
        { address := addr, networkId := net, name := nm, exp := some e,
          iat := iat, nbf := nbf, jti := jti } now = true ↔
       e - (now : Int) < 1800) := by
    intro addr nm net iat nbf jti e now
    by_cases he : e = 0
    · subst he
      simp only [Auth.shouldRefreshToken, if_pos rfl]
      constructor
      · intro _
        omega
      · intro _
        rfl
    · simp only [Auth.shouldRefreshToken, if_neg he, Auth.JWT_EXPIRATION,
        decide_eq_true_eq]
      omega
  refine ⟨base, ?_, ?_⟩
  · intro secret tokenId addr nm net now
    simp only [Auth.createSecureSessionToken, Auth.shouldRefreshToken,
      Auth.JWT_EXPIRATION]
    rw [if_neg (by omega)]
    simp only [decide_eq_false_iff_not]
    omega
  · intro addr nm net iat nbf jti now
    refine ⟨(base addr nm net iat nbf jti _ now).mpr (by omega), ?_, ?_⟩
    · exact Bool.eq_false_iff.mpr (fun hb =>
        absurd ((base addr nm net iat nbf jti _ now).mp hb) (by omega))
    · exact Bool.eq_false_iff.mpr (fun hb =>
        absurd ((base addr nm net iat nbf jti _ now).mp hb) (by omega))

/-- C10 counterexample: a token correctly signed with the server key, with a
non-empty address and a jti and no exp claim, but with `nbf = 100`, is
rejected by `validateSession` at time 0 — it does not return true at every
point in time. -/
theorem c10_counterexample :
    nbfToken.payload.address ≠ "" ∧ nbfToken.payload.jti = some "j" ∧
    ("j" : String) ≠ "" ∧ nbfToken.payload.exp = none ∧
    nbfToken.key = "k" ∧ nbfToken.alg = "HS256" ∧
    Auth.validateSession "k" nbfToken 0 = false :=
  ⟨by decide, rfl, by decide, rfl, rfl, rfl, rfl⟩

/-- C10 (amended): for every HS256 token signed with the server key whose
payload has a non-empty address, a non-empty jti, no exp claim, and whose
nbf claim (if present) is not in the future, `validateSession` returns true —
such a session never expires. -/
theorem c10_no_expiry (secret : String) (tok : Auth.JWT) (now : Int)
    (halg : tok.alg = "HS256") (hkey : tok.key = secret)
    (haddr : tok.payload.address ≠ "")
    (hjti : ∃ j, tok.payload.jti = some j ∧ j ≠ "")
    (hexp : tok.payload.exp = none)
    (hnbf : ∀ n, tok.payload.nbf = some n → n ≤ now) :
    Auth.validateSession secret tok now = true := by
  obtain ⟨j, hj, hjne⟩ := hjti
  have hclaims : Auth.joseClaimsOk tok.payload now = true := by
    unfold Auth.joseClaimsOk
    rw [hexp]
    cases hn : tok.payload.nbf with
    | none => simp
    | some n => simp [hnbf n hn]
  unfold Auth.validateSession Auth.jwtVerify
  rw [if_pos ⟨hkey, halg, hclaims⟩]
  simp only []
  rw [if_neg (fun hor => by
    rcases hor with h | h | h
    · exact haddr h
    · rw [hj] at h
      exact Option.noConfusion h
    · rw [hj] at h
      exact hjne (Option.some.inj h))]
  simp only [hexp]

/-- C10 witness: the concrete no-expiry token validates at a late time. -/
theorem c10_no_expiry_witness :
    Auth.validateSession "k" noExpToken 999999 = true :=
  c10_no_expiry "k" noExpToken 999999 rfl rfl (by decide) ⟨"j", rfl, by decide⟩
    rfl (fun _ h => Option.noConfusion h)

/-- C8: under non-negative fill rate and cost, `tryConsume` first refills by
`elapsedSeconds * fillRate` capped at the capacity, allows exactly when the
refilled count covers the cost (subtracting it), denies leaving the refilled
count unchanged, and preserves `0 ≤ tokens ≤ capacity`. -/
theorem c8_token_bucket (st : Auth.RateLimiter) (now cost : ℚ)
    (h0 : 0 ≤ st.tokens) (h1 : st.tokens ≤ st.capacity)
    (h2 : st.lastRefill ≤ now) (h3 : 0 ≤ st.fillRate) (h4 : 0 ≤ cost) :
    (st.refill now).tokens =
      min st.capacity (st.tokens + (now - st.lastRefill) / 1000 * st.fillRate) ∧
    ((st.tryConsume now cost).1 = true ↔ cost ≤ (st.refill now).tokens) ∧
    (st.tryConsume now cost).2.tokens =
      (if cost ≤ (st.refill now).tokens then (st.refill now).tokens - cost
       else (st.refill now).tokens) ∧
    (st.tryConsume now cost).2.capacity = st.capacity ∧
    0 ≤ (st.tryConsume now cost).2.tokens ∧
    (st.tryConsume now cost).2.tokens ≤ (st.tryConsume now cost).2.capacity := by
  have hcap : 0 ≤ st.capacity := le_trans h0 h1
  have hadd : 0 ≤ (now - st.lastRefill) / 1000 * st.fillRate :=
    mul_nonneg (div_nonneg (by linarith) (by norm_num)) h3
  have hrefnn : 0 ≤ (st.refill now).tokens :=
    le_min hcap (by linarith)
  have hrefle : (st.refill now).tokens ≤ st.capacity := min_le_left _ _
  refine ⟨rfl, ?_⟩
  unfold Auth.RateLimiter.tryConsume
  by_cases hc : cost ≤ (st.refill now).tokens
  · rw [if_pos hc]
    refine ⟨by simp [hc], by rw [if_pos hc], rfl, ?_, ?_⟩
    · simpa using sub_nonneg.mpr hc
    · show (st.refill now).tokens - cost ≤ (st.refill now).capacity
      have : (st.refill now).capacity = st.capacity := rfl
      rw [this]
      linarith
  · rw [if_neg hc]
    refine ⟨by simp [hc], by rw [if_neg hc], rfl, hrefnn, ?_⟩
    show (st.refill now).tokens ≤ (st.refill now).capacity
    have : (st.refill now).capacity = st.capacity := rfl
    rw [this]
    exact hrefle

/-- C8 witness: a full bucket of capacity 10 and fill rate 1 consumed one
second later allows the request and keeps the invariant. -/
theorem c8_token_bucket_witness :
    (((⟨10, 0, 10, 1⟩ : Auth.RateLimiter).tryConsume 1000 1).1 = true ↔
      (1 : ℚ) ≤ ((⟨10, 0, 10, 1⟩ : Auth.RateLimiter).refill 1000).tokens) ∧
    0 ≤ (((⟨10, 0, 10, 1⟩ : Auth.RateLimiter).tryConsume 1000 1).2).tokens :=
  ⟨(c8_token_bucket ⟨10, 0, 10, 1⟩ 1000 1 (by norm_num) (by norm_num)
      (by norm_num) (by norm_num) (by norm_num)).2.1,
   (c8_token_bucket ⟨10, 0, 10, 1⟩ 1000 1 (by norm_num) (by norm_num)
      (by norm_num) (by norm_num) (by norm_num)).2.2.2.2.1⟩

/-- C9 counterexample: the cookie the session endpoint's GET handler writes
has max-age 7 days, not the 2-hour session lifetime, and is not marked
secure outside production — it does not match the claimed attributes. -/
theorem c9_counterexample :
    (SessionRoute.sessionCookieOptions "production").maxAge = 604800 ∧
    (604800 : Int) ≠ 60 * 60 * 2 ∧
    (SessionRoute.sessionCookieOptions "development").secure = false ∧
    SessionRoute.sessionCookieOptions "production" ≠
      SessionRoute.claimedSessionCookieOptions := by
  decide

/-- C9 (amended): the session cookie rewritten by the session endpoint's GET
handler is HTTP-only, SameSite strict, on path `/`, secure exactly when
NODE_ENV is `production`, with max-age 7 days (604800 s); the DELETE handler
clears it with max-age 0.  (Its value is the JSON-serialized session object,
not a signed session token.) -/
theorem c9_session_cookie (env : String) :
    (SessionRoute.sessionCookieOptions env).httpOnly = true ∧
    (SessionRoute.sessionCookieOptions env).sameSite = "strict" ∧
    (SessionRoute.sessionCookieOptions env).path = "/" ∧
    ((SessionRoute.sessionCookieOptions env).secure = true ↔ env = "production") ∧
    (SessionRoute.sessionCookieOptions env).maxAge = 60 * 60 * 24 * 7 ∧
    (SessionRoute.clearCookieOptions env).maxAge = 0 := by
  refine ⟨rfl, rfl, rfl, ?_, rfl, rfl⟩
  simp [SessionRoute.sessionCookieOptions]
